import Mathlib

/-!
Shallow embedding of the `tools/network_region` package of the
mission-pack-nodered-bundle repository, together with theorems checking its
natural-language specification.

The embedding models:
* `NetworkLocation` (`config_loader.py`),
* the classification rule of `check_network_location` and the probe-summary
  aggregation `_count_successful_domains` (`network.py`),
* the config loading and default-mirror lookup (`config_loader.py`),
* the uv index-entry update and the docker registry-mirror update together
  with their error-absorbing wrappers (`mirror_manager.py`).

Python dicts are modelled as association lists with first-match lookup;
Python floats arising as ratios of small counts are modelled as rationals;
raised-and-caught exceptions are modelled with `Except` and explicit
failure-injection flags.
-/

namespace NetworkRegion

/-- `NetworkLocation` enum from `config_loader.py` (values "china", "global",
"unknown"). -/
inductive NetworkLocation where
  | CHINA
  | GLOBAL
  | UNKNOWN
deriving DecidableEq, Repr

/-- The dictionary `{'success_rate': ..., 'avg_response_time': ...}` returned
by `_count_successful_domains` in `network.py`. -/
structure ProbeSummary where
  success_rate : ℚ
  avg_response_time : ℚ
deriving DecidableEq, Repr

/-- Outcome of one `_http_head_fast` future as consumed by
`_count_successful_domains`: either `future.result()` raised (caught and
logged), or it completed with `(success, response_time)`. -/
inductive ProbeOutcome where
  | raised
  | completed (success : Bool) (response_time : ℚ)
deriving DecidableEq, Repr

/-- Whether an outcome counts as a successful probe. -/
def probe_succeeded : ProbeOutcome → Bool
  | ProbeOutcome.completed true _ => true
  | _ => false

/-- One iteration of the accumulation loop of `_count_successful_domains`:
a successful probe increments `successful` and adds its response time to
`total_time`; failures and raised futures are skipped. -/
def count_step (p : Nat × ℚ) (o : ProbeOutcome) : Nat × ℚ :=
  match o with
  | ProbeOutcome.completed true rt => (p.1 + 1, p.2 + rt)
  | _ => p

/-- `_count_successful_domains` from `network.py`: `total` is the number of
futures, the loop accumulates `successful` and `total_time`, and the final
averages guard against division by zero (`0` when the denominator is `0`). -/
def count_successful_domains (outcomes : List ProbeOutcome) : ProbeSummary :=
  let total : Nat := outcomes.length
  let acc : Nat × ℚ := outcomes.foldl count_step (0, 0)
  let successful : Nat := acc.1
  let total_time : ℚ := acc.2
  let avg_time : ℚ := if successful > 0 then total_time / (successful : ℚ) else 0
  let success_rate : ℚ := if total > 0 then (successful : ℚ) / (total : ℚ) else 0
  ⟨success_rate, avg_time⟩

/-- The classification step of `check_network_location` in `network.py`,
parameterised by the two probe summaries it computes: if the global set's
success rate exceeds `0.6` the result is `GLOBAL`, otherwise `CHINA`
(the inner `> 0.5` test on the china rate only selects a log message). -/
def check_network_location (china_results global_results : ProbeSummary) :
    NetworkLocation :=
  if global_results.success_rate > 6/10 then NetworkLocation.GLOBAL
  else NetworkLocation.CHINA

section ProbeLemmas

theorem count_step_fst_le (p : Nat × ℚ) (o : ProbeOutcome) :
    (count_step p o).1 ≤ p.1 + 1 := by
  cases o with
  | raised => exact Nat.le_succ _
  | completed s rt =>
    cases s with
    | false => exact Nat.le_succ _
    | true => exact Nat.le_refl _

theorem foldl_count_step_fst_le (l : List ProbeOutcome) (p : Nat × ℚ) :
    (l.foldl count_step p).1 ≤ p.1 + l.length := by
  induction l generalizing p with
  | nil => simp
  | cons o t ih =>
    calc (List.foldl count_step (count_step p o) t).1
        ≤ (count_step p o).1 + t.length := ih (count_step p o)
      _ ≤ p.1 + 1 + t.length := Nat.add_le_add_right (count_step_fst_le p o) _
      _ = p.1 + (o :: t).length := by simp [List.length_cons]; omega

theorem foldl_count_step_no_success (l : List ProbeOutcome) (p : Nat × ℚ)
    (h : ∀ o ∈ l, probe_succeeded o = false) :
    l.foldl count_step p = p := by
  induction l generalizing p with
  | nil => rfl
  | cons o t ih =>
    have ho : probe_succeeded o = false := h o (List.mem_cons_self o t)
    have hstep : count_step p o = p := by
      cases o with
      | raised => rfl
      | completed s rt =>
        cases s with
        | false => rfl
        | true => simp [probe_succeeded] at ho
    rw [List.foldl_cons, hstep]
    exact ih p (fun o ho' => h o (List.mem_cons_of_mem _ ho'))

end ProbeLemmas

/-- Claim C9: for every multiset of probe outcomes, the computed success rate
lies in `[0,1]`; and whenever no probe succeeded (including when zero probes
were attempted, so `0/0` is defined as `0`), both the success rate and the
average latency are `0`. -/
theorem C9_success_rate_bounds (outcomes : List ProbeOutcome) :
    0 ≤ (count_successful_domains outcomes).success_rate ∧
    (count_successful_domains outcomes).success_rate ≤ 1 ∧
    ((∀ o ∈ outcomes, probe_succeeded o = false) →
      (count_successful_domains outcomes).success_rate = 0 ∧
      (count_successful_domains outcomes).avg_response_time = 0) := by
  set acc := outcomes.foldl count_step ((0 : Nat), (0 : ℚ)) with hacc
  have hle : acc.1 ≤ outcomes.length := by
    simpa using foldl_count_step_fst_le outcomes (0, 0)
  refine ⟨?_, ?_, ?_⟩
  · simp only [count_successful_domains, ← hacc]
    split
    · exact div_nonneg (Nat.cast_nonneg _) (Nat.cast_nonneg _)
    · exact le_refl 0
  · simp only [count_successful_domains, ← hacc]
    split
    · rename_i hpos
      have hposQ : (0 : ℚ) < (outcomes.length : ℚ) := by
        exact_mod_cast hpos
      exact (div_le_one hposQ).mpr (by exact_mod_cast hle)
    · exact zero_le_one
  · intro h
    have hz : acc = (0, 0) := by
      rw [hacc]
      exact foldl_count_step_no_success outcomes (0, 0) h
    constructor
    · simp only [count_successful_domains, ← hacc, hz]
      split <;> simp
    · simp only [count_successful_domains, ← hacc, hz]
      rfl

/-- Witness for C9 at a concrete outcome list with no successful probe. -/
theorem C9_success_rate_bounds_witness :
    (∀ o ∈ [ProbeOutcome.raised, ProbeOutcome.completed false 5],
        probe_succeeded o = false) ∧
    (count_successful_domains
        [ProbeOutcome.raised, ProbeOutcome.completed false 5]).success_rate = 0 ∧
    (count_successful_domains
        [ProbeOutcome.raised,
          ProbeOutcome.completed false 5]).avg_response_time = 0 :=
  ⟨by decide,
    (C9_success_rate_bounds
        [ProbeOutcome.raised, ProbeOutcome.completed false 5]).2.2 (by decide)⟩

/-- Claim C1: auto-detection classifies by the asymmetric bias rule: the
result is `GLOBAL` iff the global set's success rate is strictly greater than
`0.6`; otherwise it is `CHINA` regardless of the in-region summary; and it is
never `UNKNOWN`. -/
theorem C1_classification_bias (china_results global_results : ProbeSummary) :
    (check_network_location china_results global_results = NetworkLocation.GLOBAL
      ↔ global_results.success_rate > 6/10) ∧
    (¬ global_results.success_rate > 6/10 →
      check_network_location china_results global_results =
        NetworkLocation.CHINA) ∧
    check_network_location china_results global_results ≠
      NetworkLocation.UNKNOWN := by
  refine ⟨?_, ?_, ?_⟩
  · unfold check_network_location
    split
    · rename_i hgt
      exact ⟨fun _ => hgt, fun _ => rfl⟩
    · rename_i hle
      exact ⟨fun hc => absurd hc (by decide), fun hgt => absurd hgt hle⟩
  · intro hle
    unfold check_network_location
    split
    · rename_i hgt
      exact absurd hgt hle
    · rfl
  · unfold check_network_location
    split <;> decide

/-- Witness for C1 at concrete probe summaries with both rates zero. -/
theorem C1_classification_bias_witness :
    (¬ (ProbeSummary.mk 0 0).success_rate > 6/10) ∧
    check_network_location (ProbeSummary.mk 0 0) (ProbeSummary.mk 0 0) =
      NetworkLocation.CHINA :=
  ⟨by norm_num,
    (C1_classification_bias (ProbeSummary.mk 0 0) (ProbeSummary.mk 0 0)).2.1
      (by norm_num)⟩

/-! ## Config Store (`config_loader.py`) -/

/-- The portion of the mirrors YAML document the default-mirror lookup reads:
a mapping from mirror-kind key (e.g. `"default_pip_mirror"`) to a mapping
from network location to mirror URL. `NetworkLocation` is a `str` enum in
the source, so its members hash and compare as their string values and can
key the YAML dictionaries directly. -/
abbrev ConfigDict := List (String × List (NetworkLocation × String))

/-- State of the `config/mirrors.yaml` file as observed by `_load_config`:
absent (`get_config_path` returns `None`), present but unparseable
(`yaml.safe_load` raises `YAMLError`), or present and parsed (a `None`
document is already coerced to `{}` by the source's `or {}`). -/
inductive YamlFile where
  | absent
  | malformed
  | parsed (config : ConfigDict)

/-- Error taxonomy of the spec's Config Store contract, used to state what
`_load_config` would have to return if it failed. -/
inductive LoadError where
  | configUnreadable
deriving DecidableEq, Repr

/-- `ConfigManager._load_config` from `config_loader.py`: when the path is
`None` (file absent) it returns `{}`; otherwise it parses the file, and the
`except (FileNotFoundError, yaml.YAMLError)` handler logs the error and
returns `{}`. The `Except` result type records that no error ever escapes. -/
def _load_config (file : YamlFile) : Except LoadError ConfigDict :=
  match file with
  | YamlFile.absent => Except.ok []
  | YamlFile.malformed => Except.ok []
  | YamlFile.parsed config => Except.ok config

/-- Python's `dict.get(key, default)` on a location-keyed mapping, modelled
as first-match lookup on the association list. -/
def dict_get (l : List (NetworkLocation × String)) (k : NetworkLocation)
    (d : String) : String :=
  match l with
  | [] => d
  | (k', v) :: rest => if k' = k then v else dict_get rest k d

/-- Python's `config.get(mirror_type, {})`. -/
def config_get (c : ConfigDict) (k : String) :
    List (NetworkLocation × String) :=
  match c with
  | [] => []
  | (k', v) :: rest => if k' = k then v else config_get rest k

/-- Option-valued lookup, used only to state the fallback-chain theorem. -/
def lookup_entry (l : List (NetworkLocation × String)) (k : NetworkLocation) :
    Option String :=
  match l with
  | [] => none
  | (k', v) :: rest => if k' = k then some v else lookup_entry rest k

/-- `get_default_mirror` from `config_loader.py`:
`mirrors.get(location, mirrors.get(NetworkLocation.GLOBAL, default_value))`
on `mirrors = config.get(mirror_type, {})`. -/
def get_default_mirror (config : ConfigDict) (mirror_type : String)
    (location : NetworkLocation) (default_value : String) : String :=
  let mirrors := config_get config mirror_type
  dict_get mirrors location (dict_get mirrors NetworkLocation.GLOBAL default_value)

theorem dict_get_eq_lookup (l : List (NetworkLocation × String))
    (k : NetworkLocation) (d : String) :
    dict_get l k d = (lookup_entry l k).getD d := by
  induction l with
  | nil => rfl
  | cons p rest ih =>
    obtain ⟨k', v⟩ := p
    by_cases h : k' = k
    · simp [dict_get, lookup_entry, h]
    · simp [dict_get, lookup_entry, h, ih]

/-- Claim C2 counterexample: on a present-but-malformed mirrors file,
`_load_config` succeeds with the empty configuration instead of failing with
`ConfigUnreadable`, so "Load raises iff the file is present and unparseable"
is false at this input. -/
theorem C2_counterexample :
    (_load_config YamlFile.malformed).isOk = true ∧
    _load_config YamlFile.malformed ≠ Except.error LoadError.configUnreadable ∧
    _load_config YamlFile.malformed = Except.ok ([] : ConfigDict) :=
  ⟨rfl, fun h => Except.noConfusion h, rfl⟩

/-- Claim C2 (amended): `_load_config` never errors: it returns the empty
configuration both when the file is absent and when it is present but
malformed (the parse error is logged and absorbed), and the parsed
configuration otherwise. -/
theorem C2_load_never_errors (file : YamlFile) :
    (_load_config file).isOk = true ∧
    _load_config YamlFile.absent = Except.ok ([] : ConfigDict) ∧
    _load_config YamlFile.malformed = Except.ok ([] : ConfigDict) := by
  refine ⟨?_, rfl, rfl⟩
  cases file <;> rfl

/-- Claim C3: `get_default_mirror` with the wrappers' empty-string default
follows the fallback chain exact region → `GLOBAL` → `""`: it returns the
requested region's entry when present, else the `GLOBAL` entry when present,
else the empty string. -/
theorem C3_lookup_default_fallback (config : ConfigDict) (mirror_type : String)
    (location : NetworkLocation) :
    get_default_mirror config mirror_type location "" =
      match lookup_entry (config_get config mirror_type) location with
      | some v => v
      | none =>
        match lookup_entry (config_get config mirror_type)
            NetworkLocation.GLOBAL with
        | some v => v
        | none => "" := by
  unfold get_default_mirror
  rw [dict_get_eq_lookup, dict_get_eq_lookup]
  cases lookup_entry (config_get config mirror_type) location with
  | none =>
    cases lookup_entry (config_get config mirror_type) NetworkLocation.GLOBAL
      <;> rfl
  | some v => rfl

/-! ## Package-index (uv) writer (`mirror_manager.py`, `update_uv_mirror`) -/

/-- One entry of `config_data["index"]` in `uv.toml`: the fields the writer
reads and writes (`index.get("default", False)` and `index["url"]`). -/
structure UvIndexEntry where
  url : String
  default : Bool
deriving DecidableEq, Repr

/-- The `for idx, index in enumerate(config_data["index"])` loop of
`update_uv_mirror`: walk the entries in order and, at the first one whose
`default` flag is true, replace its `url` with the mirror and stop; `none`
when no entry is flagged default. -/
def set_first_default_url (index : List UvIndexEntry) (mirror : String) :
    Option (List UvIndexEntry) :=
  match index with
  | [] => none
  | e :: rest =>
    if e.default then some ({ e with url := mirror } :: rest)
    else (set_first_default_url rest mirror).map (fun r => e :: r)

/-- The in-memory entry-list update of `update_uv_mirror` (the code between
the read and the write): update the first default-flagged entry in place, or
append `{url: mirror, default: True}` if no entry is flagged default. This
is only the in-memory half of the writer: the surrounding read of the
existing `uv.toml` and the (TOML-breaking) write-back loop are modelled
separately below by `uv_read_back` and `serialize_uv_index`. -/
def update_uv_index (index : List UvIndexEntry) (mirror : String) :
    List UvIndexEntry :=
  match set_first_default_url index mirror with
  | some updated => updated
  | none => index ++ [⟨mirror, true⟩]

section UvWriterLemmas

theorem set_first_default_url_cons (a : UvIndexEntry) (t : List UvIndexEntry)
    (mirror : String) :
    set_first_default_url (a :: t) mirror =
      if a.default then some ({ a with url := mirror } :: t)
      else (set_first_default_url t mirror).map (fun r => a :: r) := rfl

theorem set_first_default_url_none (index : List UvIndexEntry)
    (mirror : String) :
    set_first_default_url index mirror = none →
      ∀ e ∈ index, e.default = false := by
  induction index with
  | nil => intro _ e he; exact absurd he (List.not_mem_nil e)
  | cons a t ih =>
    intro h e he
    rw [set_first_default_url_cons] at h
    by_cases ha : a.default
    · rw [if_pos ha] at h
      exact absurd h (by simp)
    · rw [if_neg ha] at h
      cases hrec : set_first_default_url t mirror with
      | none =>
        rcases List.mem_cons.mp he with rfl | ht
        · exact Bool.eq_false_iff.mpr ha
        · exact ih hrec e ht
      | some r =>
        rw [hrec] at h
        exact absurd h (by simp)

theorem set_first_default_url_some (index : List UvIndexEntry)
    (mirror : String) :
    ∀ r, set_first_default_url index mirror = some r →
      ∃ d rest, index.filter (fun e => e.default) = d :: rest ∧
        r.filter (fun e => e.default) = UvIndexEntry.mk mirror true :: rest := by
  induction index with
  | nil => intro r h; exact absurd h (by simp [set_first_default_url])
  | cons a t ih =>
    intro r h
    rw [set_first_default_url_cons] at h
    by_cases ha : a.default
    · rw [if_pos ha, Option.some_inj] at h
      subst h
      have hmk : ({ a with url := mirror } : UvIndexEntry) =
          UvIndexEntry.mk mirror true := by
        have hd : ({ a with url := mirror } : UvIndexEntry) =
            UvIndexEntry.mk mirror a.default := rfl
        rw [hd, ha]
      refine ⟨a, t.filter (fun e => e.default), by simp [List.filter_cons, ha],
        ?_⟩
      simp [List.filter_cons, hmk]
    · rw [if_neg ha] at h
      cases hrec : set_first_default_url t mirror with
      | none =>
        rw [hrec] at h
        exact absurd h (by simp)
      | some r' =>
        rw [hrec, Option.map_some', Option.some_inj] at h
        subst h
        obtain ⟨d, rest, h₁, h₂⟩ := ih r' hrec
        have ha' : a.default = false := Bool.eq_false_iff.mpr ha
        exact ⟨d, rest, by simp [List.filter_cons, ha', h₁],
          by simp [List.filter_cons, ha', h₂]⟩

theorem set_first_default_url_nondefault (index : List UvIndexEntry)
    (mirror : String) :
    ∀ r, set_first_default_url index mirror = some r →
      r.filter (fun e => !e.default) = index.filter (fun e => !e.default) := by
  induction index with
  | nil => intro r h; exact absurd h (by simp [set_first_default_url])
  | cons a t ih =>
    intro r h
    rw [set_first_default_url_cons] at h
    by_cases ha : a.default
    · rw [if_pos ha, Option.some_inj] at h
      subst h
      simp [List.filter_cons, ha]
    · rw [if_neg ha] at h
      cases hrec : set_first_default_url t mirror with
      | none =>
        rw [hrec] at h
        exact absurd h (by simp)
      | some r' =>
        rw [hrec, Option.map_some', Option.some_inj] at h
        subst h
        have ha' : a.default = false := Bool.eq_false_iff.mpr ha
        simp [List.filter_cons, ha', ih r' hrec]

/-- Single-application shape lemma: starting from at most one default-flagged
entry, one application of the writer leaves exactly the default entry
`⟨mirror, true⟩` among the default-flagged entries. -/
theorem update_uv_index_single_default (index : List UvIndexEntry)
    (mirror : String) (h : (index.filter (fun e => e.default)).length ≤ 1) :
    (update_uv_index index mirror).filter (fun e => e.default) =
      [UvIndexEntry.mk mirror true] := by
  unfold update_uv_index
  cases hset : set_first_default_url index mirror with
  | none =>
    have hnone : ∀ e ∈ index, e.default = false :=
      set_first_default_url_none index mirror hset
    have hfil : index.filter (fun e => e.default) = [] := by
      rw [List.filter_eq_nil_iff]
      intro e he
      simp [hnone e he]
    simp [List.filter_append, hfil, List.filter_cons]
  | some r =>
    obtain ⟨d, rest, h₁, h₂⟩ := set_first_default_url_some index mirror r hset
    rw [h₁] at h
    have : rest = [] := by
      simpa using List.length_eq_zero.mp (by simpa using h)
    rw [h₂, this]

end UvWriterLemmas

/-- A true fact about the in-memory half alone, kept for documentation: the
non-default entries of the entry list are untouched by the in-memory update.
(The claims about the writer are settled below against the full persisted
round-trip, which this in-memory fact does not survive.) -/
theorem update_uv_index_preserves_nondefault_in_memory
    (index : List UvIndexEntry) (mirror : String) :
    (update_uv_index index mirror).filter (fun e => !e.default) =
      index.filter (fun e => !e.default) := by
  unfold update_uv_index
  cases hset : set_first_default_url index mirror with
  | none => simp [List.filter_append, List.filter_cons]
  | some r => exact set_first_default_url_nondefault index mirror r hset

/-! ### Persisted round-trip of the uv writer

The write-back loop (`mirror_manager.py:103-115`) serialises entries by
hand; boolean fields go through Python string formatting and come out as
`True` / `False` (see the source's own `# Removed str(value).lower()`
comment). TOML spells booleans `true` / `false` only, so `tomllib` rejects
every file this loop writes that contains a boolean field — and the updated
entry list always contains the default-flagged entry's boolean. The next
invocation's guarded read therefore degrades to an empty entry list. The
definitions below model the serialised file as its list of lines and
`tomllib.load` on the emitted line shapes (header lines, `key = value`
pairs with quoted-string or lowercase-boolean values; escape sequences are
not modelled, no serialised value here contains them). -/

/-- Scalar values of the TOML fragment these files use. -/
inductive TomlScalar where
  | string (s : String)
  | boolean (b : Bool)
deriving DecidableEq, Repr

/-- One parsed line: the `[[index]]` table-array header, a `key = value`
pair, or a blank separator line. -/
inductive TomlLine where
  | header
  | blank
  | pair (key : String) (val : TomlScalar)
deriving DecidableEq, Repr

/-- Split a line's characters at the first ` = ` assignment separator. -/
def split_assign (cs : List Char) : Option (List Char × List Char) :=
  match cs with
  | [] => none
  | ' ' :: '=' :: ' ' :: rest => some ([], rest)
  | c :: rest => (split_assign rest).map (fun p => (c :: p.1, p.2))

/-- `tomllib`'s reading of one value token, on the shapes at play: the
boolean literals, which TOML accepts lowercase only, and a double-quoted
basic string. Python's `True` / `False` reprs are not TOML values, so
`tomllib` raises `TOMLDecodeError` on them. -/
def toml_value_parse (s : String) : Option TomlScalar :=
  if s = "true" then some (TomlScalar.boolean true)
  else if s = "false" then some (TomlScalar.boolean false)
  else
    match s.data with
    | '"' :: rest =>
      if rest.getLast? = some '"' then
        some (TomlScalar.string (String.mk rest.dropLast))
      else none
    | _ => none

/-- Parse one line of an index file. -/
def toml_line_parse (line : String) : Option TomlLine :=
  if line = "" then some TomlLine.blank
  else if line = "[[index]]" then some TomlLine.header
  else
    match split_assign line.data with
    | some (k, v) =>
      (toml_value_parse (String.mk v)).map (TomlLine.pair (String.mk k))
    | none => none

/-- Parse a whole file: `tomllib.load` raises on the first offending line,
rejecting the whole document, so every line must parse. -/
def toml_lines_parse : List String → Option (List TomlLine)
  | [] => some []
  | line :: rest =>
    match toml_line_parse line, toml_lines_parse rest with
    | some tl, some tls => some (tl :: tls)
    | _, _ => none

/-- First-match lookup in one block's key-value pairs. -/
def field_lookup (fields : List (String × TomlScalar)) (k : String) :
    Option TomlScalar :=
  match fields with
  | [] => none
  | (k', v) :: rest => if k' = k then some v else field_lookup rest k

/-- Rebuild one `[[index]]` block's entry from its key-value pairs, with the
reader's tolerant defaults (`index.get("default", False)`; a missing url
reads as the empty string). -/
def block_to_entry (fields : List (String × TomlScalar)) : UvIndexEntry :=
  { url := match field_lookup fields "url" with
      | some (TomlScalar.string s) => s
      | _ => "",
    default := match field_lookup fields "default" with
      | some (TomlScalar.boolean b) => b
      | _ => false }

/-- Collect the `[[index]]` blocks of a parsed file into entries; the second
argument carries the fields of the block currently open, if any. -/
def toml_entries_aux : List TomlLine → Option (List (String × TomlScalar)) →
    List UvIndexEntry
  | [], none => []
  | [], some fields => [block_to_entry fields]
  | TomlLine.blank :: rest, cur => toml_entries_aux rest cur
  | TomlLine.header :: rest, none => toml_entries_aux rest (some [])
  | TomlLine.header :: rest, some fields =>
    block_to_entry fields :: toml_entries_aux rest (some [])
  | TomlLine.pair _ _ :: rest, none => toml_entries_aux rest none
  | TomlLine.pair k v :: rest, some fields =>
    toml_entries_aux rest (some (fields ++ [(k, v)]))

/-- The `index` entry list of a parsed file. -/
def toml_entries (tls : List TomlLine) : List UvIndexEntry :=
  toml_entries_aux tls none

/-- `config_data.get("index", [])` after the guarded `tomllib.load` of an
existing file: a parse failure is caught by the inner `try` (a logged
warning), leaving `config_data = {}`, hence no entries. -/
def uv_read_back (lines : List String) : List UvIndexEntry :=
  match toml_lines_parse lines with
  | some tls => toml_entries tls
  | none => []

/-- One entry of the write-back loop of `update_uv_mirror`
(`mirror_manager.py:106-113`): a `[[index]]` header, the quoted url line,
and the boolean flag formatted by the f-string as `True` / `False` (the
`# Removed str(value).lower()` line). -/
def serialize_uv_entry (e : UvIndexEntry) : List String :=
  ["[[index]]",
    "url = " ++ "\"" ++ e.url ++ "\"",
    "default = " ++ (if e.default then "True" else "False")]

/-- The whole write-back loop: each entry's block, with a blank line between
consecutive entries (`mirror_manager.py:114-115`). -/
def serialize_uv_index : List UvIndexEntry → List String
  | [] => []
  | [e] => serialize_uv_entry e
  | e :: rest => serialize_uv_entry e ++ "" :: serialize_uv_index rest

/-- One successful invocation of `update_uv_mirror` as a transformation of
the persisted `uv.toml` text: read the existing file back (degrading to
empty on parse failure), update the entry list in memory, serialise it. -/
def update_uv_mirror_persisted (lines : List String) (mirror : String) :
    List String :=
  serialize_uv_index (update_uv_index (uv_read_back lines) mirror)

section RoundTripLemmas

theorem set_first_default_url_ne_nil (index : List UvIndexEntry)
    (mirror : String) :
    ∀ r, set_first_default_url index mirror = some r → r ≠ [] := by
  induction index with
  | nil => intro r h; exact absurd h (by simp [set_first_default_url])
  | cons a t ih =>
    intro r h
    rw [set_first_default_url_cons] at h
    by_cases ha : a.default
    · rw [if_pos ha, Option.some_inj] at h
      subst h
      exact List.cons_ne_nil _ _
    · rw [if_neg ha] at h
      cases hrec : set_first_default_url t mirror with
      | none =>
        rw [hrec] at h
        exact absurd h (by simp)
      | some r' =>
        rw [hrec, Option.map_some', Option.some_inj] at h
        subst h
        exact List.cons_ne_nil _ _

theorem update_uv_index_ne_nil (index : List UvIndexEntry) (mirror : String) :
    update_uv_index index mirror ≠ [] := by
  unfold update_uv_index
  cases hset : set_first_default_url index mirror with
  | none => simp
  | some r => exact set_first_default_url_ne_nil index mirror r hset

/-- The Python-formatted boolean line is not valid TOML, while the lowercase
spelling and the quoted url line are: the write failure is precisely the
capitalisation, not the grammar. -/
theorem toml_line_parse_python_bool_invalid :
    toml_line_parse "default = True" = none ∧
    toml_line_parse "default = False" = none ∧
    toml_line_parse "default = true" =
      some (TomlLine.pair "default" (TomlScalar.boolean true)) ∧
    toml_line_parse ("url = " ++ "\"" ++ "https://m.example/simple" ++ "\"") =
      some (TomlLine.pair "url"
        (TomlScalar.string "https://m.example/simple")) := by
  refine ⟨by decide, by decide, by decide, by decide⟩

theorem toml_line_parse_bool_line (b : Bool) :
    toml_line_parse ("default = " ++ (if b then "True" else "False")) =
      none := by
  cases b
  · exact toml_line_parse_python_bool_invalid.2.1
  · exact toml_line_parse_python_bool_invalid.1

theorem toml_lines_parse_of_mem_fail (lines : List String) (line : String)
    (hmem : line ∈ lines) (hfail : toml_line_parse line = none) :
    toml_lines_parse lines = none := by
  induction lines with
  | nil => exact absurd hmem (List.not_mem_nil line)
  | cons l rest ih =>
    rcases List.mem_cons.mp hmem with rfl | hm
    · simp only [toml_lines_parse]
      rw [hfail]
    · simp only [toml_lines_parse]
      rw [ih hm]
      cases toml_line_parse l <;> rfl

theorem serialize_uv_index_has_bool_line (e : UvIndexEntry)
    (rest : List UvIndexEntry) :
    ("default = " ++ (if e.default then "True" else "False")) ∈
      serialize_uv_index (e :: rest) := by
  cases rest with
  | nil => simp [serialize_uv_index, serialize_uv_entry]
  | cons f t => simp [serialize_uv_index, serialize_uv_entry]

theorem toml_lines_parse_serialized (l : List UvIndexEntry) (h : l ≠ []) :
    toml_lines_parse (serialize_uv_index l) = none := by
  cases l with
  | nil => exact absurd rfl h
  | cons e rest =>
    exact toml_lines_parse_of_mem_fail _ _
      (serialize_uv_index_has_bool_line e rest)
      (toml_line_parse_bool_line e.default)

theorem uv_read_back_serialized (l : List UvIndexEntry) (h : l ≠ []) :
    uv_read_back (serialize_uv_index l) = [] := by
  unfold uv_read_back
  rw [toml_lines_parse_serialized l h]

end RoundTripLemmas

/-- Claim C4: for every starting persisted entry list and mirror, applying
the same region's mirror twice leaves exactly one default-flagged entry in
the persisted config, and it carries that mirror URL — not two default
entries. The program reaches this postcondition degenerately: the first
write emits `True`/`False` boolean lines, invalid TOML, so the second
invocation's read parses nothing, starts from an empty entry list and
appends the single fresh default entry, which is all the final file
holds. -/
theorem C4_single_default_after_applying_twice (index : List UvIndexEntry)
    (mirror : String) :
    update_uv_index
        (uv_read_back (serialize_uv_index (update_uv_index index mirror)))
        mirror = [UvIndexEntry.mk mirror true] ∧
    update_uv_mirror_persisted
        (serialize_uv_index (update_uv_index index mirror)) mirror =
      serialize_uv_index [UvIndexEntry.mk mirror true] := by
  have hrb : uv_read_back (serialize_uv_index (update_uv_index index mirror))
      = [] :=
    uv_read_back_serialized _ (update_uv_index_ne_nil index mirror)
  have hupd : update_uv_index ([] : List UvIndexEntry) mirror =
      [UvIndexEntry.mk mirror true] := rfl
  constructor
  · rw [hrb, hupd]
  · unfold update_uv_mirror_persisted
    rw [hrb, hupd]

/-- Claim C5 (code-bug evaluation): starting from a parseable config holding
one non-default entry, the in-memory update does keep that entry, but the
write-back emits `default = False` and `default = True` lines (Python bool
reprs, not TOML), the written file fails to parse, and reading the persisted
config back yields no entries at all: the non-default entry's url and flag
are not preserved in the persisted state, contrary to the claim. -/
theorem C5_nondefault_entry_lost_on_disk :
    update_uv_index [UvIndexEntry.mk "https://keep.example/simple" false]
        "https://m.example/simple" =
      [UvIndexEntry.mk "https://keep.example/simple" false,
        UvIndexEntry.mk "https://m.example/simple" true] ∧
    "default = False" ∈
      serialize_uv_index
        (update_uv_index
          [UvIndexEntry.mk "https://keep.example/simple" false]
          "https://m.example/simple") ∧
    toml_lines_parse
        (serialize_uv_index
          (update_uv_index
            [UvIndexEntry.mk "https://keep.example/simple" false]
            "https://m.example/simple")) = none ∧
    uv_read_back
        (serialize_uv_index
          (update_uv_index
            [UvIndexEntry.mk "https://keep.example/simple" false]
            "https://m.example/simple")) = [] := by
  refine ⟨by decide, by decide, by decide, by decide⟩

/-! ## Registry (docker) writer (`mirror_manager.py`, `update_docker_mirror`) -/

/-- JSON values, for the contents of `~/.docker/config.json`. -/
inductive JsonVal where
  | str (s : String)
  | num (n : Int)
  | boolVal (b : Bool)
  | null
  | arr (elems : List JsonVal)
  | obj (fields : List (String × JsonVal))

/-- The top-level docker `config.json` object, as a key-ordered association
list (Python dicts preserve insertion order and have unique keys). -/
abbrev DockerConfig := List (String × JsonVal)

/-- First-match lookup, Python's `config_data.get(k)` / `k in config_data`. -/
def json_obj_get (d : DockerConfig) (k : String) : Option JsonVal :=
  match d with
  | [] => none
  | (k', v) :: rest => if k' = k then some v else json_obj_get rest k

/-- Python's `"k" in config_data`. -/
def json_obj_contains (d : DockerConfig) (k : String) : Bool :=
  (json_obj_get d k).isSome

/-- Python's `del config_data[k]` (on a unique-key dict this removes the one
binding of `k` and nothing else; here every binding of `k` is removed). -/
def json_obj_del (d : DockerConfig) (k : String) : DockerConfig :=
  match d with
  | [] => []
  | (k', v) :: rest =>
    if k' = k then json_obj_del rest k else (k', v) :: json_obj_del rest k

/-- Python's `config_data[k] = v`: replace the value at `k` in place if the
key is present, otherwise append the binding at the end. -/
def json_obj_set (d : DockerConfig) (k : String) (v : JsonVal) : DockerConfig :=
  match d with
  | [] => [(k, v)]
  | (k', v') :: rest =>
    if k' = k then (k, v) :: rest else (k', v') :: json_obj_set rest k v

/-- The in-memory update of `update_docker_mirror`: with an empty resolved
mirror, delete `"registry-mirrors"` if present; otherwise set
`"registry-mirrors"` to the single-element list `[default_mirror]`. The
result is what `json.dump` then writes back. -/
def update_docker_config (config_data : DockerConfig) (default_mirror : String) :
    DockerConfig :=
  if default_mirror = "" then
    if json_obj_contains config_data "registry-mirrors" then
      json_obj_del config_data "registry-mirrors"
    else config_data
  else
    json_obj_set config_data "registry-mirrors"
      (JsonVal.arr [JsonVal.str default_mirror])

section DockerWriterLemmas

theorem json_obj_get_del_self (d : DockerConfig) (k : String) :
    json_obj_get (json_obj_del d k) k = none := by
  induction d with
  | nil => rfl
  | cons p rest ih =>
    obtain ⟨k', v⟩ := p
    by_cases h : k' = k
    · simp only [json_obj_del, if_pos h]
      exact ih
    · simp only [json_obj_del, if_neg h, json_obj_get]
      exact ih

theorem json_obj_get_del_other (d : DockerConfig) (k k' : String)
    (h : k' ≠ k) : json_obj_get (json_obj_del d k) k' = json_obj_get d k' := by
  induction d with
  | nil => rfl
  | cons p rest ih =>
    obtain ⟨k'', v⟩ := p
    by_cases hk : k'' = k
    · have hk'' : ¬ k'' = k' := by rw [hk]; exact Ne.symm h
      simp only [json_obj_del, if_pos hk, json_obj_get]
      rw [ih, if_neg hk'']
    · simp only [json_obj_del, if_neg hk, json_obj_get]
      by_cases hk' : k'' = k'
      · rw [if_pos hk', if_pos hk']
      · rw [if_neg hk', if_neg hk']
        exact ih

theorem json_obj_get_set_self (d : DockerConfig) (k : String) (v : JsonVal) :
    json_obj_get (json_obj_set d k v) k = some v := by
  induction d with
  | nil => simp [json_obj_set, json_obj_get]
  | cons p rest ih =>
    obtain ⟨k', v'⟩ := p
    by_cases h : k' = k
    · simp only [json_obj_set, if_pos h, json_obj_get]
      simp
    · simp only [json_obj_set, if_neg h, json_obj_get]
      exact ih

theorem json_obj_get_set_other (d : DockerConfig) (k k' : String) (v : JsonVal)
    (h : k' ≠ k) : json_obj_get (json_obj_set d k v) k' = json_obj_get d k' := by
  induction d with
  | nil =>
    simp only [json_obj_set, json_obj_get]
    rw [if_neg (Ne.symm h)]
  | cons p rest ih =>
    obtain ⟨k'', v''⟩ := p
    by_cases hk : k'' = k
    · simp only [json_obj_set, if_pos hk, json_obj_get]
      rw [if_neg (Ne.symm h), if_neg (show ¬ k'' = k' by rw [hk]; exact Ne.symm h)]
    · simp only [json_obj_set, if_neg hk, json_obj_get]
      by_cases hk' : k'' = k'
      · rw [if_pos hk', if_pos hk']
      · rw [if_neg hk', if_neg hk']
        exact ih

end DockerWriterLemmas

/-- Claim C6: after the registry update, the `"registry-mirrors"` key is
absent when the resolved mirror is empty, and otherwise maps to exactly the
single-element list containing the resolved mirror, whatever was there
before. -/
theorem C6_registry_mirrors_value (config_data : DockerConfig)
    (default_mirror : String) :
    json_obj_get (update_docker_config config_data default_mirror)
        "registry-mirrors" =
      if default_mirror = "" then none
      else some (JsonVal.arr [JsonVal.str default_mirror]) := by
  unfold update_docker_config
  by_cases hm : default_mirror = ""
  · rw [if_pos hm, if_pos hm]
    by_cases hc : json_obj_contains config_data "registry-mirrors"
    · rw [if_pos hc]
      exact json_obj_get_del_self config_data "registry-mirrors"
    · rw [if_neg hc]
      exact Option.not_isSome_iff_eq_none.mp
        (by simpa [json_obj_contains] using hc)
  · rw [if_neg hm, if_neg hm]
    exact json_obj_get_set_self config_data "registry-mirrors" _

/-- Claim C7: the registry update preserves every sibling key verbatim: any
key other than `"registry-mirrors"` maps to the same value before and after
the update. -/
theorem C7_registry_preserves_siblings (config_data : DockerConfig)
    (default_mirror : String) (k : String) (h : k ≠ "registry-mirrors") :
    json_obj_get (update_docker_config config_data default_mirror) k =
      json_obj_get config_data k := by
  unfold update_docker_config
  by_cases hm : default_mirror = ""
  · rw [if_pos hm]
    by_cases hc : json_obj_contains config_data "registry-mirrors"
    · rw [if_pos hc]
      exact json_obj_get_del_other config_data "registry-mirrors" k h
    · rw [if_neg hc]
  · rw [if_neg hm]
    exact json_obj_get_set_other config_data "registry-mirrors" k _ h

/-- Witness for C7 at a concrete config with an `"auths"` sibling key. -/
theorem C7_registry_preserves_siblings_witness :
    ("auths" ≠ "registry-mirrors") ∧
    json_obj_get
        (update_docker_config
          [("auths", JsonVal.obj []),
            ("registry-mirrors", JsonVal.arr [JsonVal.str "old"])] "m")
        "auths" =
      json_obj_get
        [("auths", JsonVal.obj []),
          ("registry-mirrors", JsonVal.arr [JsonVal.str "old"])] "auths" :=
  ⟨by decide,
    C7_registry_preserves_siblings
      [("auths", JsonVal.obj []),
        ("registry-mirrors", JsonVal.arr [JsonVal.str "old"])]
      "m" "auths" (by decide)⟩

/-! ## Error-absorbing wrappers and batch update (`mirror_manager.py`) -/

/-- Exceptions a writer body can raise: from `mkdir(parents=True,
exist_ok=True)` or from opening/writing the config file. (Read/parse errors
of the existing file are caught by the inner `try` and never reach the outer
handler.) -/
inductive PyError where
  | mkdirError
  | writeError
deriving DecidableEq, Repr

/-- State of an existing tool config file as seen by a writer: absent,
present but unparseable, or parsed to `α`. -/
inductive FileRead (α : Type) where
  | absent
  | malformed
  | parsed (val : α)

/-- The inner `try/except` around reading the existing config: absence skips
the read, and a parse failure is logged as a warning; in both cases
`config_data` keeps its initial empty value. -/
def read_existing {α : Type} (empty : α) (f : FileRead α) : α :=
  match f with
  | FileRead.absent => empty
  | FileRead.malformed => empty
  | FileRead.parsed val => val

/-- Failure-injection environment for one writer invocation: whether the
config-directory `mkdir` raises, the state of the existing config file, and
whether opening/writing the file raises. -/
structure WriterEnv (α : Type) where
  mkdirFails : Bool
  file : FileRead α
  writeFails : Bool

/-- Body of `update_uv_mirror` (everything inside the outer `try`): make the
config directory, read the existing `uv.toml` entries (tolerating absence and
parse failure), update the entry list, and write it back; the `Except` value
is the entry list written on success, or the uncaught exception. -/
def update_uv_mirror_body (env : WriterEnv (List UvIndexEntry))
    (default_mirror : String) : Except PyError (List UvIndexEntry) :=
  if env.mkdirFails then Except.error PyError.mkdirError
  else
    let config_index := read_existing [] env.file
    let updated := update_uv_index config_index default_mirror
    if env.writeFails then Except.error PyError.writeError
    else Except.ok updated

/-- `update_uv_mirror`: the outer `try/except` catches every exception from
the body, logs it, and returns `False`; success returns `True`. -/
def update_uv_mirror (env : WriterEnv (List UvIndexEntry))
    (default_mirror : String) : Bool :=
  match update_uv_mirror_body env default_mirror with
  | Except.ok _ => true
  | Except.error _ => false

/-- Body of `update_docker_mirror` (everything inside the outer `try`):
make the `.docker` directory, read the existing `config.json` (tolerating
absence and parse failure, which degrade to `{}`), apply the registry-mirror
update, and write the document back (the write happens in both branches of
the mirror test). -/
def update_docker_mirror_body (env : WriterEnv DockerConfig)
    (default_mirror : String) : Except PyError DockerConfig :=
  if env.mkdirFails then Except.error PyError.mkdirError
  else
    let config_data := read_existing [] env.file
    let updated := update_docker_config config_data default_mirror
    if env.writeFails then Except.error PyError.writeError
    else Except.ok updated

/-- `update_docker_mirror`: the outer `try/except` catches every exception
from the body, logs it, and returns `False`; success returns `True`. -/
def update_docker_mirror (env : WriterEnv DockerConfig)
    (default_mirror : String) : Bool :=
  match update_docker_mirror_body env default_mirror with
  | Except.ok _ => true
  | Except.error _ => false

/-- `update_all_mirrors`: builds the result dict by calling both writers,
one after the other, and returns `{"uv": ..., "docker": ...}`. -/
def update_all_mirrors (uv_env : WriterEnv (List UvIndexEntry))
    (docker_env : WriterEnv DockerConfig) (pip_mirror docker_mirror : String) :
    List (String × Bool) :=
  [("uv", update_uv_mirror uv_env pip_mirror),
    ("docker", update_docker_mirror docker_env docker_mirror)]

/-- Claim C8: the batch update returns the two-entry map keyed `"uv"` and
`"docker"`, each writer's result depending only on its own environment (so a
failure of the uv writer never prevents or changes the docker write), and
each wrapper absorbs its body's outcome into a plain boolean: `false` exactly
when the body raised, `true` exactly when it succeeded. -/
theorem C8_update_all_independent (uv_env : WriterEnv (List UvIndexEntry))
    (docker_env : WriterEnv DockerConfig) (pip_mirror docker_mirror : String) :
    (update_all_mirrors uv_env docker_env pip_mirror docker_mirror =
      [("uv", update_uv_mirror uv_env pip_mirror),
        ("docker", update_docker_mirror docker_env docker_mirror)]) ∧
    ((update_uv_mirror_body uv_env pip_mirror).isOk = false →
      update_uv_mirror uv_env pip_mirror = false) ∧
    ((update_uv_mirror_body uv_env pip_mirror).isOk = true →
      update_uv_mirror uv_env pip_mirror = true) ∧
    ((update_docker_mirror_body docker_env docker_mirror).isOk = false →
      update_docker_mirror docker_env docker_mirror = false) ∧
    ((update_docker_mirror_body docker_env docker_mirror).isOk = true →
      update_docker_mirror docker_env docker_mirror = true) := by
  refine ⟨rfl, ?_, ?_, ?_, ?_⟩
  · intro h
    unfold update_uv_mirror
    cases hb : update_uv_mirror_body uv_env pip_mirror with
    | ok l => rw [hb] at h; exact absurd h (by simp [Except.isOk, Except.toBool])
    | error e => rfl
  · intro h
    unfold update_uv_mirror
    cases hb : update_uv_mirror_body uv_env pip_mirror with
    | ok l => rfl
    | error e => rw [hb] at h; exact absurd h (by simp [Except.isOk, Except.toBool])
  · intro h
    unfold update_docker_mirror
    cases hb : update_docker_mirror_body docker_env docker_mirror with
    | ok l => rw [hb] at h; exact absurd h (by simp [Except.isOk, Except.toBool])
    | error e => rfl
  · intro h
    unfold update_docker_mirror
    cases hb : update_docker_mirror_body docker_env docker_mirror with
    | ok l => rfl
    | error e => rw [hb] at h; exact absurd h (by simp [Except.isOk, Except.toBool])

/-- Witness for C8: a run where the uv writer's body raises (its `mkdir`
fails) while the docker writer runs on an intact environment; the uv failure
is absorbed into `false` and the docker entry still succeeds. -/
theorem C8_update_all_independent_witness :
    ((update_uv_mirror_body (WriterEnv.mk true FileRead.absent false)
        "p").isOk = false) ∧
    update_uv_mirror (WriterEnv.mk true FileRead.absent false) "p" = false ∧
    ((update_docker_mirror_body (WriterEnv.mk false FileRead.absent false)
        "d").isOk = true) ∧
    update_docker_mirror (WriterEnv.mk false FileRead.absent false) "d" = true ∧
    update_all_mirrors (WriterEnv.mk true FileRead.absent false)
        (WriterEnv.mk false FileRead.absent false) "p" "d" =
      [("uv", update_uv_mirror (WriterEnv.mk true FileRead.absent false) "p"),
        ("docker",
          update_docker_mirror (WriterEnv.mk false FileRead.absent false)
            "d")] :=
  ⟨rfl,
    (C8_update_all_independent (WriterEnv.mk true FileRead.absent false)
        (WriterEnv.mk false FileRead.absent false) "p" "d").2.1 rfl,
    rfl,
    (C8_update_all_independent (WriterEnv.mk true FileRead.absent false)
        (WriterEnv.mk false FileRead.absent false) "p" "d").2.2.2.2 rfl,
    (C8_update_all_independent (WriterEnv.mk true FileRead.absent false)
        (WriterEnv.mk false FileRead.absent false) "p" "d").1⟩

/-- Claim C10: on a docker config file that exists but is not valid JSON, the
writer logs a warning and proceeds from `{}`: with a non-empty resolved
mirror it succeeds (returns `true`) and the document it writes back contains
only the `"registry-mirrors"` key — every sibling key previously in the file
is lost. -/
theorem C10_malformed_docker_config_replaced (default_mirror : String)
    (h : default_mirror ≠ "") :
    update_docker_mirror_body (WriterEnv.mk false FileRead.malformed false)
        default_mirror =
      Except.ok [("registry-mirrors",
        JsonVal.arr [JsonVal.str default_mirror])] ∧
    update_docker_mirror (WriterEnv.mk false FileRead.malformed false)
        default_mirror = true := by
  have hbody : update_docker_mirror_body
      (WriterEnv.mk false FileRead.malformed false) default_mirror =
      Except.ok [("registry-mirrors",
        JsonVal.arr [JsonVal.str default_mirror])] := by
    unfold update_docker_mirror_body
    simp [read_existing, update_docker_config, h, json_obj_set]
  exact ⟨hbody, by unfold update_docker_mirror; rw [hbody]⟩

/-- Witness for C10 at the concrete mirror `"https://m.example"`. -/
theorem C10_malformed_docker_config_replaced_witness :
    ("https://m.example" ≠ "") ∧
    update_docker_mirror_body (WriterEnv.mk false FileRead.malformed false)
        "https://m.example" =
      Except.ok [("registry-mirrors",
        JsonVal.arr [JsonVal.str "https://m.example"])] ∧
    update_docker_mirror (WriterEnv.mk false FileRead.malformed false)
        "https://m.example" = true :=
  ⟨by decide,
    (C10_malformed_docker_config_replaced "https://m.example" (by decide)).1,
    (C10_malformed_docker_config_replaced "https://m.example" (by decide)).2⟩

end NetworkRegion
